import Mathlib

/-!
Shallow embedding of the sensor-event subsystem of an IoT server-room
monitoring node: the MFRC522 card-reader driver (`rfid.py`) and the
sensor orchestrator (`sensors.py`).

Conventions of the embedding:
* machine bytes are `Nat` (all register values are already in 0..255 at the
  source; bitwise operations use `&&&` / `^^^` as in the source);
* timestamps are integer seconds (`Int`); the source uses
  `datetime.datetime` and compares differences of `.total_seconds()`
  against an integer cooldown;
* hardware register reads are an oracle `reads : Nat -> Nat` giving the
  k-th value read from the polled register; a full card exchange is
  represented by its observable result (status, data bytes);
* Python exceptions raised by collaborators (the camera) are an explicit
  `CaptureOutcome.raises` constructor; functions that the source guarantees
  cannot raise are total Lean functions.
-/

/-- Status codes for RFID operations (`class RFIDStatus(IntEnum)`). -/
inductive RFIDStatus where
  | OK
  | NO_TAG
  | ERROR
deriving DecidableEq, Repr

/-- Card information record (`@dataclass class CardInfo`). -/
structure CardInfo where
  name : String
  role : String
deriving DecidableEq, Repr

/-- A 5-byte UID key of the authorized-card table. -/
abbrev UidKey := Nat × Nat × Nat × Nat × Nat

/-- The static authorized-card table `AUTHORIZED_CARDS` of `rfid.py`. -/
def AUTHORIZED_CARDS : List (UidKey × CardInfo) :=
  [ ((5, 74, 28, 185, 234), ⟨"Card A", "admin"⟩),
    ((83, 164, 247, 164, 164), ⟨"Card B", "IT staff"⟩),
    ((20, 38, 121, 207, 132), ⟨"Card C", "maintenance"⟩) ]

/-- Dictionary lookup `table.get(key)` on an association list. -/
def lookupCard (table : List (UidKey × CardInfo)) (key : UidKey) : Option CardInfo :=
  (table.find? (fun p => p.1 = key)).map (fun p => p.2)

/-- The running XOR `serNumCheck` computed in `MFRC522_Anticoll` over the
first four bytes of the candidate UID. -/
def serNumCheck (backData : List Nat) : Nat :=
  (backData.take 4).foldl (fun a b => a ^^^ b) 0

/-- `MFRC522.MFRC522_Anticoll`, post-exchange part: given the observable
result `(status, backData)` of the `PCD_TRANSCEIVE` exchange, apply the
checksum gate of the source: when the exchange returned `OK` with exactly
5 bytes, the XOR of the first 4 bytes must equal the 5th, otherwise the
status is downgraded to `ERROR`.  Total: a mismatch is reported as a
status, never raised. -/
def MFRC522_Anticoll (status : RFIDStatus) (backData : List Nat) :
    RFIDStatus × List Nat :=
  if status = RFIDStatus.OK ∧ backData.length = 5 then
    if serNumCheck backData ≠ backData.getD 4 0 then
      (RFIDStatus.ERROR, backData)
    else
      (status, backData)
  else
    (status, backData)

/-- Convert the first five entries of a UID list to the dictionary key,
as `card_uid_tuple = (uid[0], uid[1], uid[2], uid[3], uid[4])` does
(only reached when the list has length 5). -/
def uidTuple (uid : List Nat) : UidKey :=
  (uid.getD 0 0, uid.getD 1 0, uid.getD 2 0, uid.getD 3 0, uid.getD 4 0)

/-- `RFIDReader.authenticate_card`, parameterised by the table it
consults: reject any UID whose length is not 5 before the table is
consulted; otherwise look the 5-tuple up, granting with the stored role
on a hit and denying with no role on a miss. -/
def authenticate_card_table (table : List (UidKey × CardInfo)) (uid : List Nat) :
    RFIDStatus × Option String :=
  if uid.length ≠ 5 then
    (RFIDStatus.ERROR, none)
  else
    match lookupCard table (uidTuple uid) with
    | some info => (RFIDStatus.OK, some info.role)
    | none => (RFIDStatus.ERROR, none)

/-- `RFIDReader.authenticate_card` against the static table. -/
def authenticate_card (uid : List Nat) : RFIDStatus × Option String :=
  authenticate_card_table AUTHORIZED_CARDS uid

/-- Whether a UID list hits the static table: it must be exactly 5 bytes
and its tuple must be a key of `AUTHORIZED_CARDS`. -/
def uidInTable (uid : List Nat) : Bool :=
  uid.length = 5 && (lookupCard AUTHORIZED_CARDS (uidTuple uid)).isSome

/-- Result of the `while i:` polling loop of `MFRC522_ToCard`:
the value of the counter `i` after the loop, the last value `n` read from
`CommIrqReg`, and how many register reads the loop performed. -/
structure PollResult where
  remaining : Nat
  lastRead : Nat
  readCount : Nat
deriving DecidableEq, Repr

/-- The polling loop of `MFRC522_ToCard`:
`i = 2000; while i: n = Read(CommIrqReg); i -= 1; if n & 0x01 or n & waitIRq: break`.
`reads k` is the k-th value the hardware returns for `CommIrqReg`; the
counter is the fuel, so the loop is total by construction. -/
def pollCommIrq (reads : Nat → Nat) (waitIRq : Nat) : Nat → Nat → PollResult
  | 0, _ => ⟨0, 0, 0⟩
  | i + 1, k =>
      let n := reads k
      if n &&& 0x01 ≠ 0 ∨ n &&& waitIRq ≠ 0 then
        ⟨i, n, 1⟩
      else
        let r := pollCommIrq reads waitIRq i (k + 1)
        ⟨r.remaining, if r.readCount = 0 then n else r.lastRead, r.readCount + 1⟩

/-- The status computation of `MFRC522_ToCard` around its polling loop:
`status` starts as `ERROR`; only when the loop exits with `i` non-zero and
the error register has none of the bits `0x1B` does it become `OK`
(downgraded to `NO_TAG` when the timer-interrupt bit of `n & irqEn & 0x01`
fired).  Exhausting the 2000-iteration ceiling leaves `ERROR`.
The FIFO readback of the `PCD_TRANSCEIVE` branch only fills `backData` and
does not affect the status, so it is not part of this definition. -/
def toCardPollStatus (reads : Nat → Nat) (irqEn waitIRq errorRegVal : Nat) : RFIDStatus :=
  let r := pollCommIrq reads waitIRq 2000 0
  if r.remaining ≠ 0 then
    if errorRegVal &&& 0x1B = 0 then
      if r.lastRead &&& irqEn &&& 0x01 ≠ 0 then RFIDStatus.NO_TAG else RFIDStatus.OK
    else RFIDStatus.ERROR
  else RFIDStatus.ERROR

/-- A value stored in a sensor-status `data` dictionary (the source mixes
strings, booleans and `None` as dictionary values). -/
inductive JVal where
  | str (v : String)
  | boolean (v : Bool)
  | nil
deriving DecidableEq, Repr

/-- `Some url` as a dictionary value, `None` as `nil`. -/
def optVal : Option String → JVal
  | some v => JVal.str v
  | none => JVal.nil

/-- The mutable per-sensor record `SensorStatus` of `sensors.py`
(timestamps as integer seconds; the `firmware_version` field is never
written and is omitted). -/
structure SensorStatus where
  name : String
  isActive : Bool
  lastCheck : Int
  type : String
  location : Option String := none
  error : Option String := none
  data : Option (List (String × JVal)) := none
  lastEventTimestamp : Option Int := none
  eventCount : Nat := 0
deriving DecidableEq, Repr

/-- Dictionary lookup on the status table (`self._sensor_status[name]`
guarded by `name in self._sensor_status`). -/
def lookupStatus : List (String × SensorStatus) → String → Option SensorStatus
  | [], _ => none
  | p :: ps, name => if p.1 = name then some p.2 else lookupStatus ps name

/-- Replace the record stored under an existing key (the in-place mutation
of the found `current_status`). -/
def setStatus : List (String × SensorStatus) → String → SensorStatus →
    List (String × SensorStatus)
  | [], _, _ => []
  | p :: ps, name, st => if p.1 = name then (p.1, st) :: ps else p :: setStatus ps name st

/-- The fallback-type inference of `_update_sensor_status` for an
unregistered sensor name. -/
def fallbackType (name : String) : String :=
  if name = "motion" then "motion"
  else if name = "door" then "door"
  else if name = "window" then "window"
  else if name = "rfid" then "rfid"
  else if name = "camera" then "camera"
  else if name = "door_lock" then "actuator"
  else if name = "window_lock" then "actuator"
  else "unknown"

/-- `SensorManager._update_sensor_status`: on a registered name, mutate
`is_active`, `last_check`, `error` and `data` unconditionally and bump
`event_count` / `last_event_timestamp` when `event_detected`; on an
unregistered name, log a warning (returned as the second component) and
create a fallback entry instead of raising. -/
def update_sensor_status (table : List (String × SensorStatus)) (name : String)
    (isActive : Bool) (now : Int) (error : Option String)
    (data : Option (List (String × JVal))) (eventDetected : Bool) :
    List (String × SensorStatus) × List String :=
  match lookupStatus table name with
  | some cur =>
      (setStatus table name
        { cur with
          isActive := isActive, lastCheck := now, error := error, data := data,
          eventCount := if eventDetected then cur.eventCount + 1 else cur.eventCount,
          lastEventTimestamp := if eventDetected then some now else cur.lastEventTimestamp },
       [])
  | none =>
      (table ++ [(name,
        { name := name, isActive := isActive, lastCheck := now, error := error,
          data := data, type := fallbackType name, location := none,
          eventCount := if eventDetected then 1 else 0,
          lastEventTimestamp := if eventDetected then some now else none })],
       ["Attempted to update status for uninitialized sensor: " ++ name ++ ". Creating entry."])

/-- The `SensorManager` state touched by the event handlers: the shared
cooldown timestamp `_last_event_time`, the configured `_event_cooldown`
and the shared status table `_sensor_status`. -/
structure ManagerState where
  lastEventTime : Int
  eventCooldown : Int
  table : List (String × SensorStatus)
deriving DecidableEq, Repr

/-- Observable behaviour of the camera collaborator during one handler
run: either both `capture_image` and `record_video` return
(paths and optional cloud URLs), or one of them raises — their
`except` clauses re-raise, so a capture failure is an exception at the
call site. -/
inductive CaptureOutcome where
  | ok (imagePath : String) (imageUrl : Option String)
       (videoPath : String) (videoUrl : Option String)
  | raises (msg : String)
deriving DecidableEq, Repr

/-- What one call to an event handler did. -/
inductive DispatchOutcome where
  | cooldownSkip
  | dispatched
  | captureFailed
deriving DecidableEq, Repr

/-- `SensorManager._handle_intrusion_event`: return early (state
unchanged) while the cooldown is active; otherwise capture media, record
the capture on the camera status entry, send the alert
(`NotificationManager.send_alert` swallows every channel failure
internally and returns `None`, so `notifySent` does not affect control
flow), and only then set `_last_event_time`.  When the capture raises,
the `except` clause marks the camera entry errored and the timestamp is
left unchanged. -/
def handle_intrusion_event (s : ManagerState) (eventType : String) (now : Int)
    (capture : CaptureOutcome) (notifySent : Bool) : ManagerState × DispatchOutcome :=
  if now - s.lastEventTime < s.eventCooldown then
    (s, DispatchOutcome.cooldownSkip)
  else
    match capture with
    | CaptureOutcome.raises msg =>
        ({ s with
           table := (update_sensor_status s.table "camera" false now (some msg) none false).1 },
         DispatchOutcome.captureFailed)
    | CaptureOutcome.ok imagePath imageUrl videoPath videoUrl =>
        let camData : List (String × JVal) :=
          [("last_image", JVal.str imagePath), ("last_image_url", optVal imageUrl),
           ("last_video", JVal.str videoPath), ("last_video_url", optVal videoUrl),
           ("trigger_event", JVal.str eventType)]
        ({ s with
           table := (update_sensor_status s.table "camera" true now none (some camData) true).1,
           lastEventTime := now },
         DispatchOutcome.dispatched)

/-- `SensorManager._handle_unauthorized_access`: same shape as the
intrusion handler (video duration 30 instead of 10, an rfid alert instead
of an intrusion alert, and the offending uid in the camera data), gated
by the same `_last_event_time` / `_event_cooldown` pair. -/
def handle_unauthorized_access (s : ManagerState) (uid : String) (now : Int)
    (capture : CaptureOutcome) (notifySent : Bool) : ManagerState × DispatchOutcome :=
  if now - s.lastEventTime < s.eventCooldown then
    (s, DispatchOutcome.cooldownSkip)
  else
    match capture with
    | CaptureOutcome.raises msg =>
        ({ s with
           table := (update_sensor_status s.table "camera" false now (some msg) none false).1 },
         DispatchOutcome.captureFailed)
    | CaptureOutcome.ok imagePath imageUrl videoPath videoUrl =>
        let camData : List (String × JVal) :=
          [("last_image", JVal.str imagePath), ("last_image_url", optVal imageUrl),
           ("last_video", JVal.str videoPath), ("last_video_url", optVal videoUrl),
           ("trigger_event", JVal.str "unauthorized_access"), ("uid", JVal.str uid)]
        ({ s with
           table := (update_sensor_status s.table "camera" true now none (some camData) true).1,
           lastEventTime := now },
         DispatchOutcome.dispatched)

/-- One non-raising pass of a contact-channel polling loop body: the
bodies of `_handle_motion`, `_handle_door` and `_handle_window` are the
same code up to the channel name, the data key of the raw read
(`detected` for motion, `open` for door/window) and the event type
handed to the intrusion handler.  Each pass always writes the channel
status first, then, when the raw read was positive, records the event
on the channel and hands off to `_handle_intrusion_event`. -/
def channel_iteration (s : ManagerState) (channel eventType dataKey : String)
    (detected : Bool) (now : Int) (capture : CaptureOutcome) (notifySent : Bool) :
    ManagerState × Option DispatchOutcome :=
  let t1 := (update_sensor_status s.table channel true now none
      (some [(dataKey, JVal.boolean detected)]) false).1
  let s1 : ManagerState := { s with table := t1 }
  if detected then
    let t2 := (update_sensor_status s1.table channel true now none
        (some [(dataKey, JVal.boolean true)]) true).1
    let s2 : ManagerState := { s1 with table := t2 }
    let r := handle_intrusion_event s2 eventType now capture notifySent
    (r.1, some r.2)
  else
    (s1, none)

/-- `_handle_motion`, one pass. -/
def motion_iteration (s : ManagerState) (motionDetected : Bool) (now : Int)
    (capture : CaptureOutcome) (notifySent : Bool) : ManagerState × Option DispatchOutcome :=
  channel_iteration s "motion" "motion_detected" "detected" motionDetected now
    capture notifySent

/-- `_handle_door`, one pass. -/
def door_iteration (s : ManagerState) (doorOpen : Bool) (now : Int)
    (capture : CaptureOutcome) (notifySent : Bool) : ManagerState × Option DispatchOutcome :=
  channel_iteration s "door" "door_opened" "open" doorOpen now capture notifySent

/-- `_handle_window`, one pass. -/
def window_iteration (s : ManagerState) (windowOpen : Bool) (now : Int)
    (capture : CaptureOutcome) (notifySent : Bool) : ManagerState × Option DispatchOutcome :=
  channel_iteration s "window" "window_opened" "open" windowOpen now capture notifySent

/-! ### Helper lemmas about the status table -/

lemma lookupStatus_setStatus_self (t : List (String × SensorStatus)) (name : String)
    (st cur : SensorStatus) (h : lookupStatus t name = some cur) :
    lookupStatus (setStatus t name st) name = some st := by
  induction t with
  | nil => simp [lookupStatus] at h
  | cons p ps ih =>
      by_cases hp : p.1 = name
      · simp [setStatus, lookupStatus, hp]
      · simp [setStatus, lookupStatus, hp] at h ⊢
        exact ih h

lemma lookupStatus_setStatus_other (t : List (String × SensorStatus))
    (name other : String) (st : SensorStatus) (h : name ≠ other) :
    lookupStatus (setStatus t other st) name = lookupStatus t name := by
  have h2 : other ≠ name := h.symm
  induction t with
  | nil => simp [setStatus]
  | cons p ps ih =>
      by_cases hp : p.1 = other
      · simp [setStatus, lookupStatus, hp, h2]
      · simp [setStatus, lookupStatus, hp, ih]

lemma lookupStatus_append (t t2 : List (String × SensorStatus)) (name : String) :
    lookupStatus (t ++ t2) name =
      (lookupStatus t name).rec (lookupStatus t2 name) (fun v => some v) := by
  induction t with
  | nil => simp [lookupStatus]
  | cons p ps ih =>
      by_cases hp : p.1 = name
      · simp [lookupStatus, hp]
      · simpa [lookupStatus, hp] using ih

/-- Updating a registered name rewrites exactly its record. -/
lemma lookup_update_self (t : List (String × SensorStatus)) (name : String)
    (a : Bool) (now : Int) (e : Option String) (d : Option (List (String × JVal)))
    (ev : Bool) (cur : SensorStatus) (h : lookupStatus t name = some cur) :
    lookupStatus (update_sensor_status t name a now e d ev).1 name =
      some { cur with
             isActive := a, lastCheck := now, error := e, data := d,
             eventCount := if ev then cur.eventCount + 1 else cur.eventCount,
             lastEventTimestamp := if ev then some now else cur.lastEventTimestamp } := by
  unfold update_sensor_status
  rw [h]
  exact lookupStatus_setStatus_self _ _ _ _ h

/-- Updating one name never changes what is stored under another. -/
lemma lookup_update_other (t : List (String × SensorStatus)) (name other : String)
    (a : Bool) (now : Int) (e : Option String) (d : Option (List (String × JVal)))
    (ev : Bool) (h : name ≠ other) :
    lookupStatus (update_sensor_status t other a now e d ev).1 name =
      lookupStatus t name := by
  unfold update_sensor_status
  cases hc : lookupStatus t other with
  | some cur =>
      exact lookupStatus_setStatus_other _ _ _ _ h
  | none =>
      rw [lookupStatus_append]
      cases hn : lookupStatus t name with
      | some cur => rfl
      | none => simp [lookupStatus, h.symm]

/-! ### Helper lemmas about the polling loop -/

lemma pollCommIrq_count_le (reads : Nat → Nat) (waitIRq : Nat) :
    ∀ fuel k, (pollCommIrq reads waitIRq fuel k).readCount ≤ fuel := by
  intro fuel
  induction fuel with
  | zero => intro k; simp [pollCommIrq]
  | succ i ih =>
      intro k
      unfold pollCommIrq
      by_cases hb : reads k &&& 0x01 ≠ 0 ∨ reads k &&& waitIRq ≠ 0
      · rw [if_pos hb]
        exact Nat.succ_le_succ (Nat.zero_le i)
      · rw [if_neg hb]
        exact Nat.succ_le_succ (ih (k + 1))

lemma pollCommIrq_exhaust (reads : Nat → Nat) (waitIRq : Nat) :
    ∀ fuel k, (∀ j, k ≤ j → j < k + fuel →
        reads j &&& 0x01 = 0 ∧ reads j &&& waitIRq = 0) →
      (pollCommIrq reads waitIRq fuel k).remaining = 0 := by
  intro fuel
  induction fuel with
  | zero => intro k _; simp [pollCommIrq]
  | succ i ih =>
      intro k h
      have hk := h k (le_refl k) (by omega)
      have hb : ¬ (reads k &&& 0x01 ≠ 0 ∨ reads k &&& waitIRq ≠ 0) := by
        simp [hk.1, hk.2]
      unfold pollCommIrq
      simp only [if_neg hb]
      exact ih (k + 1) (fun j hj1 hj2 => h j (by omega) (by omega))

/-! ### Helper lemmas about the event handlers -/

lemma handle_intrusion_skip (s : ManagerState) (eT : String) (now : Int)
    (c : CaptureOutcome) (n : Bool) (h : now - s.lastEventTime < s.eventCooldown) :
    handle_intrusion_event s eT now c n = (s, DispatchOutcome.cooldownSkip) := by
  simp [handle_intrusion_event, h]

lemma handle_unauthorized_skip (s : ManagerState) (uid : String) (now : Int)
    (c : CaptureOutcome) (n : Bool) (h : now - s.lastEventTime < s.eventCooldown) :
    handle_unauthorized_access s uid now c n = (s, DispatchOutcome.cooldownSkip) := by
  simp [handle_unauthorized_access, h]

lemma handle_intrusion_ok_fields (s : ManagerState) (eT : String) (now : Int)
    (p q : String) (u v : Option String) (n : Bool)
    (h : ¬ now - s.lastEventTime < s.eventCooldown) :
    (handle_intrusion_event s eT now (CaptureOutcome.ok p u q v) n).2 =
        DispatchOutcome.dispatched ∧
    (handle_intrusion_event s eT now (CaptureOutcome.ok p u q v) n).1.lastEventTime = now ∧
    (handle_intrusion_event s eT now (CaptureOutcome.ok p u q v) n).1.eventCooldown =
        s.eventCooldown := by
  simp [handle_intrusion_event, h]

lemma handle_intrusion_raises_fields (s : ManagerState) (eT : String) (now : Int)
    (m : String) (n : Bool)
    (h : ¬ now - s.lastEventTime < s.eventCooldown) :
    (handle_intrusion_event s eT now (CaptureOutcome.raises m) n).2 =
        DispatchOutcome.captureFailed ∧
    (handle_intrusion_event s eT now (CaptureOutcome.raises m) n).1.lastEventTime =
        s.lastEventTime ∧
    (handle_intrusion_event s eT now (CaptureOutcome.raises m) n).1.eventCooldown =
        s.eventCooldown := by
  simp [handle_intrusion_event, h]

lemma handle_unauthorized_ok_fields (s : ManagerState) (uid : String) (now : Int)
    (p q : String) (u v : Option String) (n : Bool)
    (h : ¬ now - s.lastEventTime < s.eventCooldown) :
    (handle_unauthorized_access s uid now (CaptureOutcome.ok p u q v) n).2 =
        DispatchOutcome.dispatched ∧
    (handle_unauthorized_access s uid now (CaptureOutcome.ok p u q v) n).1.lastEventTime =
        now ∧
    (handle_unauthorized_access s uid now (CaptureOutcome.ok p u q v) n).1.eventCooldown =
        s.eventCooldown := by
  simp [handle_unauthorized_access, h]

lemma handle_unauthorized_raises_fields (s : ManagerState) (uid : String) (now : Int)
    (m : String) (n : Bool)
    (h : ¬ now - s.lastEventTime < s.eventCooldown) :
    (handle_unauthorized_access s uid now (CaptureOutcome.raises m) n).2 =
        DispatchOutcome.captureFailed ∧
    (handle_unauthorized_access s uid now (CaptureOutcome.raises m) n).1.lastEventTime =
        s.lastEventTime ∧
    (handle_unauthorized_access s uid now (CaptureOutcome.raises m) n).1.eventCooldown =
        s.eventCooldown := by
  simp [handle_unauthorized_access, h]

lemma handle_intrusion_ok_table (s : ManagerState) (eT : String) (now : Int)
    (p q : String) (u v : Option String) (n : Bool)
    (h : ¬ now - s.lastEventTime < s.eventCooldown) :
    (handle_intrusion_event s eT now (CaptureOutcome.ok p u q v) n).1.table =
      (update_sensor_status s.table "camera" true now none
        (some [("last_image", JVal.str p), ("last_image_url", optVal u),
               ("last_video", JVal.str q), ("last_video_url", optVal v),
               ("trigger_event", JVal.str eT)]) true).1 := by
  simp [handle_intrusion_event, h]

lemma handle_intrusion_raises_table (s : ManagerState) (eT : String) (now : Int)
    (m : String) (n : Bool)
    (h : ¬ now - s.lastEventTime < s.eventCooldown) :
    (handle_intrusion_event s eT now (CaptureOutcome.raises m) n).1.table =
      (update_sensor_status s.table "camera" false now (some m) none false).1 := by
  simp [handle_intrusion_event, h]

/-- The manager state reached inside one positive contact-channel pass
after its two status writes, immediately before the intrusion handler
runs. -/
def channelWritten (s : ManagerState) (channel dataKey : String) (now : Int) :
    ManagerState :=
  ⟨s.lastEventTime, s.eventCooldown,
    (update_sensor_status
      (update_sensor_status s.table channel true now none
        (some [(dataKey, JVal.boolean true)]) false).1
      channel true now none (some [(dataKey, JVal.boolean true)]) true).1⟩

/-- Reduction of one positive contact-channel pass: both status writes
happen first, then the intrusion handler runs on the updated state. -/
lemma channel_iteration_true_eq (s : ManagerState) (channel eventType dataKey : String)
    (now : Int) (c : CaptureOutcome) (nOk : Bool) :
    channel_iteration s channel eventType dataKey true now c nOk =
      ((handle_intrusion_event (channelWritten s channel dataKey now)
          eventType now c nOk).1,
       some (handle_intrusion_event (channelWritten s channel dataKey now)
          eventType now c nOk).2) := rfl

/-! ### Claim theorems -/

/-- C1: for every 5-byte UID candidate returned by the anti-collision
exchange, `MFRC522_Anticoll` accepts (status `OK`) iff the XOR of its
first 4 bytes equals the 5th; on a checksum mismatch it returns the
discard status `ERROR` with the bytes, and (being a total function) never
raises. -/
theorem anticoll_checksum_gate (b : List Nat) (h : b.length = 5) :
    ((MFRC522_Anticoll RFIDStatus.OK b).1 = RFIDStatus.OK ↔
        serNumCheck b = b.getD 4 0) ∧
    (serNumCheck b ≠ b.getD 4 0 →
        MFRC522_Anticoll RFIDStatus.OK b = (RFIDStatus.ERROR, b)) := by
  unfold MFRC522_Anticoll
  rw [if_pos ⟨rfl, h⟩]
  by_cases hc : serNumCheck b = b.getD 4 0
  · rw [if_neg (not_ne_iff.mpr hc)]
    exact ⟨iff_of_true rfl hc, fun hne => absurd hc hne⟩
  · rw [if_pos hc]
    exact ⟨iff_of_false (fun habs => RFIDStatus.noConfusion habs) hc, fun _ => rfl⟩

/-- Witness for C1 at the concrete candidate `[1, 2, 3, 4, 4]`
(`1 ^ 2 ^ 3 ^ 4 = 4`). -/
theorem anticoll_checksum_gate_witness :
    ((MFRC522_Anticoll RFIDStatus.OK [1, 2, 3, 4, 4]).1 = RFIDStatus.OK ↔
        serNumCheck [1, 2, 3, 4, 4] = [1, 2, 3, 4, 4].getD 4 0) ∧
    (serNumCheck [1, 2, 3, 4, 4] ≠ [1, 2, 3, 4, 4].getD 4 0 →
        MFRC522_Anticoll RFIDStatus.OK [1, 2, 3, 4, 4] =
          (RFIDStatus.ERROR, [1, 2, 3, 4, 4])) :=
  anticoll_checksum_gate [1, 2, 3, 4, 4] (by decide)

/-- C2: `authenticate_card` grants the admin UID `(5,74,28,185,234)` with
role admin and denies the unlisted UID `(1,2,3,4,5)` with no role. -/
theorem authenticate_card_scenarios :
    authenticate_card [5, 74, 28, 185, 234] = (RFIDStatus.OK, some "admin") ∧
    authenticate_card [1, 2, 3, 4, 5] = (RFIDStatus.ERROR, none) := by
  constructor <;> rfl

/-- C3: `authenticate_card` is a pure total function of the UID alone
(identical inputs give identical results), and every UID that does not
hit the static table is denied with no role. -/
theorem authenticate_card_pure_total (uid uid2 : List Nat)
    (heq : uid2 = uid) (h : uidInTable uid = false) :
    authenticate_card uid2 = authenticate_card uid ∧
    authenticate_card uid = (RFIDStatus.ERROR, none) := by
  refine ⟨by rw [heq], ?_⟩
  unfold uidInTable at h
  unfold authenticate_card authenticate_card_table
  by_cases hl : uid.length = 5
  · rw [if_neg (not_ne_iff.mpr hl)]
    simp [hl] at h
    cases hc : lookupCard AUTHORIZED_CARDS (uidTuple uid) with
    | none => rfl
    | some info => rw [hc] at h; simp at h
  · rw [if_pos hl]

/-- Witness for C3 at the unlisted UID `[1, 2, 3, 4, 5]`. -/
theorem authenticate_card_pure_total_witness :
    authenticate_card [1, 2, 3, 4, 5] = authenticate_card [1, 2, 3, 4, 5] ∧
    authenticate_card [1, 2, 3, 4, 5] = (RFIDStatus.ERROR, none) :=
  authenticate_card_pure_total [1, 2, 3, 4, 5] [1, 2, 3, 4, 5] rfl (by decide)

/-- C4: a UID list whose length is not 5 is rejected with `(ERROR, none)`
whatever authorized-card table is in force, i.e. before and independently
of the table lookup. -/
theorem malformed_uid_rejected (table : List (UidKey × CardInfo)) (uid : List Nat)
    (h : uid.length ≠ 5) :
    authenticate_card_table table uid = (RFIDStatus.ERROR, none) := by
  unfold authenticate_card_table
  rw [if_pos h]

/-- Witness for C4 at the 3-byte read `[1, 2, 3]`. -/
theorem malformed_uid_rejected_witness :
    authenticate_card_table AUTHORIZED_CARDS [1, 2, 3] = (RFIDStatus.ERROR, none) :=
  malformed_uid_rejected AUTHORIZED_CARDS [1, 2, 3] (by decide)

/-- C8: the `MFRC522_ToCard` polling loop performs at most 2000 register
reads, and when no read within the ceiling carries the timer bit `0x01`
or an awaited bit of `waitIRq`, the exchange terminates with status
`ERROR` instead of hanging. -/
theorem toCard_poll_ceiling (reads : Nat → Nat) (irqEn waitIRq errorRegVal : Nat)
    (h : ∀ k, k < 2000 → reads k &&& 0x01 = 0 ∧ reads k &&& waitIRq = 0) :
    (pollCommIrq reads waitIRq 2000 0).readCount ≤ 2000 ∧
    toCardPollStatus reads irqEn waitIRq errorRegVal = RFIDStatus.ERROR := by
  refine ⟨pollCommIrq_count_le reads waitIRq 2000 0, ?_⟩
  have hz : (pollCommIrq reads waitIRq 2000 0).remaining = 0 :=
    pollCommIrq_exhaust reads waitIRq 2000 0 (fun j _ hj2 => h j (by omega))
  unfold toCardPollStatus
  simp [hz]

/-- Witness for C8: a register that never raises an interrupt bit
(always reads 0) with the `PCD_TRANSCEIVE` masks. -/
theorem toCard_poll_ceiling_witness :
    (pollCommIrq (fun _ => 0) 0x30 2000 0).readCount ≤ 2000 ∧
    toCardPollStatus (fun _ => 0) 0x77 0x30 0 = RFIDStatus.ERROR :=
  toCard_poll_ceiling (fun _ => 0) 0x77 0x30 0
    (fun k _ => ⟨Nat.zero_and 0x01, Nat.zero_and 0x30⟩)

/-- C5: with the configured cooldown, a first qualifying event that
dispatches successfully suppresses a second event handled less than the
cooldown later (the pipeline runs exactly once), while a third event
handled once the cooldown has elapsed since the dispatch triggers the
pipeline again. -/
theorem cooldown_exactly_once (s0 : ManagerState) (t1 t2 t3 : Int)
    (e1 e2 e3 p q : String) (u v : Option String)
    (n1 n2 n3 : Bool) (c2 c3 : CaptureOutcome)
    (h1 : ¬ t1 - s0.lastEventTime < s0.eventCooldown)
    (h2 : t2 - t1 < s0.eventCooldown)
    (h3 : ¬ t3 - t1 < s0.eventCooldown) :
    (handle_intrusion_event s0 e1 t1 (CaptureOutcome.ok p u q v) n1).2 =
        DispatchOutcome.dispatched ∧
    (handle_intrusion_event
        (handle_intrusion_event s0 e1 t1 (CaptureOutcome.ok p u q v) n1).1
        e2 t2 c2 n2).2 = DispatchOutcome.cooldownSkip ∧
    (handle_intrusion_event
        (handle_intrusion_event
          (handle_intrusion_event s0 e1 t1 (CaptureOutcome.ok p u q v) n1).1
          e2 t2 c2 n2).1
        e3 t3 c3 n3).2 ≠ DispatchOutcome.cooldownSkip := by
  obtain ⟨hd1, hlt1, hcd1⟩ := handle_intrusion_ok_fields s0 e1 t1 p q u v n1 h1
  have hskip := handle_intrusion_skip
    (handle_intrusion_event s0 e1 t1 (CaptureOutcome.ok p u q v) n1).1
    e2 t2 c2 n2 (by rw [hlt1, hcd1]; exact h2)
  have hs2 : (handle_intrusion_event
      (handle_intrusion_event s0 e1 t1 (CaptureOutcome.ok p u q v) n1).1
      e2 t2 c2 n2).1 =
      (handle_intrusion_event s0 e1 t1 (CaptureOutcome.ok p u q v) n1).1 := by
    rw [hskip]
  refine ⟨hd1, by rw [hskip], ?_⟩
  rw [hs2]
  have hq : ¬ t3 -
      (handle_intrusion_event s0 e1 t1 (CaptureOutcome.ok p u q v) n1).1.lastEventTime <
      (handle_intrusion_event s0 e1 t1 (CaptureOutcome.ok p u q v) n1).1.eventCooldown := by
    rw [hlt1, hcd1]; exact h3
  cases c3 with
  | ok p3 u3 q3 v3 =>
      rw [(handle_intrusion_ok_fields _ e3 t3 p3 q3 u3 v3 n3 hq).1]
      exact fun hcontra => DispatchOutcome.noConfusion hcontra
  | raises m3 =>
      rw [(handle_intrusion_raises_fields _ e3 t3 m3 n3 hq).1]
      exact fun hcontra => DispatchOutcome.noConfusion hcontra

/-- Witness for C5: cooldown 300, events at times 300, 400 and 600 with
last dispatch initially at 0. -/
theorem cooldown_exactly_once_witness :
    (handle_intrusion_event ⟨0, 300, []⟩ "motion_detected" 300
        (CaptureOutcome.ok "i1" none "v1" none) true).2 =
        DispatchOutcome.dispatched ∧
    (handle_intrusion_event
        (handle_intrusion_event ⟨0, 300, []⟩ "motion_detected" 300
          (CaptureOutcome.ok "i1" none "v1" none) true).1
        "door_opened" 400 (CaptureOutcome.ok "i2" none "v2" none) true).2 =
        DispatchOutcome.cooldownSkip ∧
    (handle_intrusion_event
        (handle_intrusion_event
          (handle_intrusion_event ⟨0, 300, []⟩ "motion_detected" 300
            (CaptureOutcome.ok "i1" none "v1" none) true).1
          "door_opened" 400 (CaptureOutcome.ok "i2" none "v2" none) true).1
        "window_opened" 600 (CaptureOutcome.ok "i3" none "v3" none) true).2 ≠
        DispatchOutcome.cooldownSkip :=
  cooldown_exactly_once ⟨0, 300, []⟩ 300 400 600 "motion_detected" "door_opened"
    "window_opened" "i1" "v1" none none true true true
    (CaptureOutcome.ok "i2" none "v2" none) (CaptureOutcome.ok "i3" none "v3" none)
    (by decide) (by decide) (by decide)

/-- C6 counterexample: last dispatch at 0, cooldown 300, qualifying event
at time 1000 (no active cooldown), capture collaborator raises — the
handler leaves the cooldown timestamp at 0 instead of updating it to the
event time 1000. -/
theorem cooldown_timestamp_on_failure_cex :
    ¬ ((1000 : Int) - (0 : Int) < 300) ∧
    (handle_intrusion_event ⟨0, 300, []⟩ "motion_detected" 1000
        (CaptureOutcome.raises "CaptureError") true).1.lastEventTime = 0 ∧
    (0 : Int) ≠ 1000 := by
  refine ⟨by decide, ?_, by decide⟩
  exact (handle_intrusion_raises_fields ⟨0, 300, []⟩ "motion_detected" 1000
    "CaptureError" true (by decide)).2.1

/-- C6 amended: on a qualifying, non-cooled-down event, both handlers set
the cooldown timestamp to the event time whenever the capture collaborator
returns — regardless of the notification outcome, which `send_alert`
swallows internally — but when the capture collaborator raises, the
`except` clause leaves the timestamp unchanged. -/
theorem cooldown_timestamp_after_attempt (s : ManagerState) (eT uid m : String)
    (now : Int) (p q : String) (u v : Option String) (n1 n2 n3 n4 : Bool)
    (h : ¬ now - s.lastEventTime < s.eventCooldown) :
    (handle_intrusion_event s eT now (CaptureOutcome.ok p u q v) n1).1.lastEventTime =
        now ∧
    (handle_intrusion_event s eT now (CaptureOutcome.raises m) n2).1.lastEventTime =
        s.lastEventTime ∧
    (handle_unauthorized_access s uid now (CaptureOutcome.ok p u q v) n3).1.lastEventTime =
        now ∧
    (handle_unauthorized_access s uid now (CaptureOutcome.raises m) n4).1.lastEventTime =
        s.lastEventTime :=
  ⟨(handle_intrusion_ok_fields s eT now p q u v n1 h).2.1,
   (handle_intrusion_raises_fields s eT now m n2 h).2.1,
   (handle_unauthorized_ok_fields s uid now p q u v n3 h).2.1,
   (handle_unauthorized_raises_fields s uid now m n4 h).2.1⟩

/-- Witness for the amended C6 at a concrete qualifying event. -/
theorem cooldown_timestamp_after_attempt_witness :
    (handle_intrusion_event ⟨0, 300, []⟩ "motion_detected" 1000
        (CaptureOutcome.ok "img" none "vid" none) false).1.lastEventTime = 1000 ∧
    (handle_intrusion_event ⟨0, 300, []⟩ "motion_detected" 1000
        (CaptureOutcome.raises "CaptureError") false).1.lastEventTime = 0 ∧
    (handle_unauthorized_access ⟨0, 300, []⟩ "1-2-3-4-5" 1000
        (CaptureOutcome.ok "img" none "vid" none) true).1.lastEventTime = 1000 ∧
    (handle_unauthorized_access ⟨0, 300, []⟩ "1-2-3-4-5" 1000
        (CaptureOutcome.raises "CaptureError") true).1.lastEventTime = 0 :=
  cooldown_timestamp_after_attempt ⟨0, 300, []⟩ "motion_detected" "1-2-3-4-5"
    "CaptureError" 1000 "img" "vid" none none false false true true (by decide)

/-- C7: one positive contact-channel pass (motion, door or window — any
channel other than the camera entry the handler writes) updates the
channel status (active flag, last check, data, incremented event count)
with no cooldown hypothesis — i.e. independently of the cooldown state —
while an active cooldown makes the handed-off event come back as a pure
skip. -/
theorem status_write_independent_of_cooldown (s : ManagerState)
    (channel eventType dataKey : String) (now : Int)
    (st : SensorStatus) (c : CaptureOutcome) (nOk : Bool)
    (hch : channel ≠ "camera")
    (hm : lookupStatus s.table channel = some st) :
    lookupStatus ((channel_iteration s channel eventType dataKey true now c nOk).1).table
        channel =
      some { st with
             isActive := true, lastCheck := now, error := none,
             data := some [(dataKey, JVal.boolean true)],
             eventCount := st.eventCount + 1,
             lastEventTimestamp := some now } ∧
    (now - s.lastEventTime < s.eventCooldown →
      (channel_iteration s channel eventType dataKey true now c nOk).2 =
        some DispatchOutcome.cooldownSkip) := by
  have h1 := lookup_update_self s.table channel true now none
      (some [(dataKey, JVal.boolean true)]) false st hm
  simp only [Bool.false_eq_true, if_false] at h1
  have h2 := lookup_update_self
      (update_sensor_status s.table channel true now none
        (some [(dataKey, JVal.boolean true)]) false).1
      channel true now none (some [(dataKey, JVal.boolean true)]) true _ h1
  simp only [if_true] at h2
  constructor
  · show lookupStatus (handle_intrusion_event (channelWritten s channel dataKey now)
        eventType now c nOk).1.table channel = _
    by_cases hcd : now - s.lastEventTime < s.eventCooldown
    · rw [handle_intrusion_skip (channelWritten s channel dataKey now)
        eventType now c nOk hcd]
      exact h2
    · cases c with
      | ok p u q v =>
          rw [handle_intrusion_ok_table (channelWritten s channel dataKey now)
              eventType now p q u v nOk hcd,
            lookup_update_other _ channel "camera" true now none _ true hch]
          exact h2
      | raises m =>
          rw [handle_intrusion_raises_table (channelWritten s channel dataKey now)
              eventType now m nOk hcd,
            lookup_update_other _ channel "camera" false now (some m) none false hch]
          exact h2
  · intro hcd
    show some (handle_intrusion_event (channelWritten s channel dataKey now)
        eventType now c nOk).2 = some DispatchOutcome.cooldownSkip
    rw [handle_intrusion_skip (channelWritten s channel dataKey now)
      eventType now c nOk hcd]

/-- Witness for C7: a registered motion channel, cooldown active
(last dispatch at 90, event at 100, cooldown 300). -/
theorem status_write_independent_of_cooldown_witness :
    lookupStatus ((channel_iteration
        ⟨90, 300, [("motion", ⟨"motion", false, 0, "motion", none, none, none, none, 0⟩)]⟩
        "motion" "motion_detected" "detected" true 100
        (CaptureOutcome.ok "img" none "vid" none) true).1).table "motion" =
      some { (⟨"motion", false, 0, "motion", none, none, none, none, 0⟩ : SensorStatus) with
             isActive := true, lastCheck := 100, error := none,
             data := some [("detected", JVal.boolean true)],
             eventCount := 0 + 1,
             lastEventTimestamp := some 100 } ∧
    ((100 : Int) - (90 : Int) < 300 →
      (channel_iteration
        ⟨90, 300, [("motion", ⟨"motion", false, 0, "motion", none, none, none, none, 0⟩)]⟩
        "motion" "motion_detected" "detected" true 100
        (CaptureOutcome.ok "img" none "vid" none) true).2 =
        some DispatchOutcome.cooldownSkip) :=
  status_write_independent_of_cooldown
    ⟨90, 300, [("motion", ⟨"motion", false, 0, "motion", none, none, none, none, 0⟩)]⟩
    "motion" "motion_detected" "detected" 100
    ⟨"motion", false, 0, "motion", none, none, none, none, 0⟩
    (CaptureOutcome.ok "img" none "vid" none) true (by decide) rfl

/-- C9: updating an unregistered sensor name never raises: it appends a
fallback entry (inferred or unknown type, event count 1 exactly when an
event was flagged) and emits the warning, so the table afterwards
contains an entry for that name. -/
theorem unregistered_update_fallback (t : List (String × SensorStatus))
    (name : String) (a : Bool) (now : Int) (e : Option String)
    (d : Option (List (String × JVal))) (ev : Bool)
    (h : lookupStatus t name = none) :
    lookupStatus (update_sensor_status t name a now e d ev).1 name =
      some { name := name, isActive := a, lastCheck := now, error := e, data := d,
             type := fallbackType name, location := none,
             eventCount := if ev then 1 else 0,
             lastEventTimestamp := if ev then some now else none } ∧
    (update_sensor_status t name a now e d ev).2 =
      ["Attempted to update status for uninitialized sensor: " ++ name ++
        ". Creating entry."] := by
  unfold update_sensor_status
  rw [h]
  refine ⟨?_, rfl⟩
  rw [lookupStatus_append, h]
  simp [lookupStatus]

/-- Witness for C9: an update to the unregistered name smoke with an
event flagged. -/
theorem unregistered_update_fallback_witness :
    lookupStatus (update_sensor_status [] "smoke" true 5 none none true).1 "smoke" =
      some { name := "smoke", isActive := true, lastCheck := 5, error := none,
             data := none, type := fallbackType "smoke", location := none,
             eventCount := if true then 1 else 0,
             lastEventTimestamp := if true then some 5 else none } ∧
    (update_sensor_status [] "smoke" true 5 none none true).2 =
      ["Attempted to update status for uninitialized sensor: " ++ "smoke" ++
        ". Creating entry."] :=
  unregistered_update_fallback [] "smoke" true 5 none none true rfl

/-- C10: the cooldown is one timestamp shared by both alert paths: a
successful dispatch through the intrusion handler suppresses a
less-than-cooldown-later unauthorized-access event, and conversely a
dispatch through the unauthorized-access handler suppresses a later
intrusion event, whatever channel or event type produced it. -/
theorem shared_cooldown_across_paths (s0 : ManagerState) (t1 t2 : Int)
    (eT eT2 uid uid2 p q : String) (u v : Option String)
    (n1 n2 n3 n4 : Bool) (c2 c3 : CaptureOutcome)
    (h1 : ¬ t1 - s0.lastEventTime < s0.eventCooldown)
    (h2 : t2 - t1 < s0.eventCooldown) :
    (handle_unauthorized_access
        (handle_intrusion_event s0 eT t1 (CaptureOutcome.ok p u q v) n1).1
        uid t2 c2 n2).2 = DispatchOutcome.cooldownSkip ∧
    (handle_intrusion_event
        (handle_unauthorized_access s0 uid2 t1 (CaptureOutcome.ok p u q v) n3).1
        eT2 t2 c3 n4).2 = DispatchOutcome.cooldownSkip := by
  obtain ⟨-, hlt1, hcd1⟩ := handle_intrusion_ok_fields s0 eT t1 p q u v n1 h1
  obtain ⟨-, hlt2, hcd2⟩ := handle_unauthorized_ok_fields s0 uid2 t1 p q u v n3 h1
  constructor
  · rw [handle_unauthorized_skip _ uid t2 c2 n2 (by rw [hlt1, hcd1]; exact h2)]
  · rw [handle_intrusion_skip _ eT2 t2 c3 n4 (by rw [hlt2, hcd2]; exact h2)]

/-- Witness for C10: dispatch at time 300 suppresses the other path at
time 400 under cooldown 300, in both directions. -/
theorem shared_cooldown_across_paths_witness :
    (handle_unauthorized_access
        (handle_intrusion_event ⟨0, 300, []⟩ "motion_detected" 300
          (CaptureOutcome.ok "img" none "vid" none) true).1
        "1-2-3-4-5" 400 (CaptureOutcome.ok "i2" none "v2" none) true).2 =
        DispatchOutcome.cooldownSkip ∧
    (handle_intrusion_event
        (handle_unauthorized_access ⟨0, 300, []⟩ "9-9-9-9-9" 300
          (CaptureOutcome.ok "img" none "vid" none) false).1
        "door_opened" 400 (CaptureOutcome.ok "i2" none "v2" none) false).2 =
        DispatchOutcome.cooldownSkip :=
  shared_cooldown_across_paths ⟨0, 300, []⟩ 300 400 "motion_detected" "door_opened"
    "1-2-3-4-5" "9-9-9-9-9" "img" "vid" none none true true false false
    (CaptureOutcome.ok "i2" none "v2" none) (CaptureOutcome.ok "i2" none "v2" none)
    (by decide) (by decide)
